import Mathlib

/-
Verification development for the atlan-sdk-scripts repository.

The repository holds three command-line scripts:
  * src/createTags.py              — creates tag definitions from a YAML config;
  * src/custom_metadata/cm_generator.py — reconciles custom-metadata attribute
    definitions from a JSON config against the remote catalog;
  * src/options/options_generator.py    — creates/updates enumeration definitions.

This file gives a shallow embedding of the script-level logic: the attribute
reconciler of cm_generator.py (its update and create paths), the scope
("applicability") resolution rule, the per-item control flow of all three
scripts, and the environment-variable client configuration.  Remote calls of
the vendor SDK are modelled by explicit outcome parameters (lookup outcomes,
write outcomes) and by actions recording the arguments the scripts pass to
the SDK; the results of the two live lookups
(`_get_all_qualified_names("Connection")` / `("AtlasGlossary")`) are threaded
through as parameters `connU` / `glossU`.
-/

/-- The fixed primitive-type enumeration
`AtlanCustomAttributePrimitiveType` referenced by the `mapping` dict of
cm_generator.py (lines 292-303). Only the members the script uses appear. -/
inductive AtlanCustomAttributePrimitiveType where
  | STRING
  | URL
  | OPTIONS
  | USERS
  | GROUPS
  | BOOLEAN
  | INTEGER
  | SQL
  | DATE
  | DECIMAL
deriving DecidableEq

/-- The static asset-type universe `_complete_type_list` of
cm_generator.py (lines 45-182), verbatim. -/
def _complete_type_list : Finset String :=
  ([ "ADLSAccount", "ADLSContainer", "ADLSObject", "AnaplanPage", "AnaplanList",
     "AnaplanLineItem", "AnaplanWorkspace", "AnaplanModule", "AnaplanModel",
     "AnaplanApp", "AnaplanDimension", "AnaplanView", "APIObject", "APIQuery",
     "APIField", "APIPath", "APISpec", "Application", "ApplicationField",
     "Collection", "Query", "BIProcess", "Badge", "Column", "ColumnProcess",
     "Connection", "CustomEntity", "DataStudioAsset", "DataverseAttribute",
     "DataverseEntity", "Database", "DbtColumnProcess", "DbtMetric", "DbtModel",
     "DbtModelColumn", "DbtProcess", "DbtSource", "Folder", "GCSBucket",
     "GCSObject", "Insight", "KafkaConsumerGroup", "KafkaTopic", "Process",
     "Link", "LookerDashboard", "LookerExplore", "LookerField", "LookerFolder",
     "LookerLook", "LookerModel", "LookerProject", "LookerQuery", "LookerTile",
     "LookerView", "MCIncident", "MCMonitor", "MaterialisedView",
     "MetabaseCollection", "MetabaseDashboard", "MetabaseQuestion", "ModeChart",
     "ModeCollection", "ModeQuery", "ModeReport", "ModeWorkspace",
     "PowerBIColumn", "PowerBIDashboard", "PowerBIDataflow", "PowerBIDataset",
     "PowerBIDatasource", "PowerBIMeasure", "PowerBIPage", "PowerBIReport",
     "PowerBITable", "PowerBITile", "PowerBIWorkspace", "PresetChart",
     "PresetDashboard", "PresetDataset", "PresetWorkspace", "Procedure",
     "QlikApp", "QlikChart", "QlikDataset", "QlikSheet", "QlikSpace",
     "QlikStream", "QuickSightAnalysis", "QuickSightAnalysisVisual",
     "QuickSightDashboard", "QuickSightDashboardVisual", "QuickSightDataset",
     "QuickSightDatasetField", "QuickSightFolder", "Readme", "ReadmeTemplate",
     "RedashDashboard", "RedashQuery", "RedashVisualization", "S3Bucket",
     "S3Object", "SalesforceDashboard", "SalesforceField", "SalesforceObject",
     "SalesforceOrganization", "SalesforceReport", "Schema", "SigmaDataElement",
     "SigmaDataElementField", "SigmaDataset", "SigmaDatasetColumn", "SigmaPage",
     "SigmaWorkbook", "SnowflakePipe", "SnowflakeStream", "SnowflakeTag",
     "SupersetChart", "SupersetDashboard", "SupersetDataset", "Table",
     "TablePartition", "TableauCalculatedField", "TableauDashboard",
     "TableauDatasource", "TableauDatasourceField", "TableauFlow",
     "TableauMetric", "TableauProject", "TableauSite", "TableauWorkbook",
     "TableauWorksheet", "ThoughtspotAnswer", "ThoughtspotDashlet",
     "ThoughtspotLiveboard", "View" ] : List String).toFinset

/-- `_all_glossary_types` of cm_generator.py (lines 184-188). -/
def _all_glossary_types : Finset String :=
  (["AtlasGlossary", "AtlasGlossaryCategory", "AtlasGlossaryTerm"] : List String).toFinset

/-- `_all_domains` of cm_generator.py (line 190). -/
def _all_domains : Finset String := (["*/super"] : List String).toFinset

/-- `_all_domain_types` of cm_generator.py (lines 192-195). -/
def _all_domain_types : Finset String :=
  (["DataDomain", "DataProduct"] : List String).toFinset

/-- `_all_other_types` of cm_generator.py (line 197). -/
def _all_other_types : Finset String := (["File"] : List String).toFinset

/-- The scope-resolution expression that cm_generator.py repeats once per
applicability category on each of its three construction sites
(lines 330-337, 355-361 and 385-391):

`set() if not inp else universe if inp[0] == "all" else set(inp)`

`not inp` is true exactly for an absent key (`None`) and for the empty list;
otherwise the FIRST element is compared against `"all"`. -/
def resolveScope (univ : Finset String) (inp : Option (List String)) : Finset String :=
  match inp with
  | none => ∅
  | some [] => ∅
  | some (x :: xs) => if x = "all" then univ else (x :: xs).toFinset

/-- One desired-attribute entry of the JSON config, as read by
cm_generator.py through `attr.get(...)` (absent keys give `None`). -/
structure AttrConfig where
  type : Option String := none
  options : Option String := none
  multivalue : Option Bool := none
  applicable_connections : Option (List String) := none
  applicable_asset_types : Option (List String) := none
  applicable_glossaries : Option (List String) := none
  applicable_glossary_types : Option (List String) := none
  applicable_other_asset_types : Option (List String) := none
  applicable_domains : Option (List String) := none
  applicable_domain_types : Option (List String) := none
deriving DecidableEq

/-- The SDK attribute-definition object as the script populates it. -/
structure AttributeDef where
  display_name : String
  attribute_type : Option AtlanCustomAttributePrimitiveType := none
  options_name : Option String := none
  multi_valued : Option Bool := none
  applicable_connections : Finset String := ∅
  applicable_glossaries : Finset String := ∅
  applicable_domains : Finset String := ∅
  applicable_asset_types : Finset String := ∅
  applicable_glossary_types : Finset String := ∅
  applicable_domain_types : Finset String := ∅
  applicable_other_asset_types : Finset String := ∅
deriving DecidableEq

/-- The `mapping` dict of cm_generator.py (lines 292-303), from config `type`
strings to primitive types. -/
def mapping : List (String × AtlanCustomAttributePrimitiveType) :=
  [ ("Text", .STRING), ("URL", .URL), ("Enum", .OPTIONS), ("Users", .USERS),
    ("Groups", .GROUPS), ("Boolean", .BOOLEAN), ("Int", .INTEGER),
    ("SQL", .SQL), ("Date", .DATE), ("Decimal", .DECIMAL) ]

/-- Python `dict.get(k)`: the value bound to the first (only) occurrence of
key `k`, or `None`. -/
def lookupStr {α : Type} (k : String) : List (String × α) → Option α
  | [] => none
  | (k', v) :: rest => if k' = k then some v else lookupStr k rest

/-- Python `dict.pop(k)`: drop the binding of key `k`, keeping the rest in
order. -/
def eraseKey {α : Type} (k : String) : List (String × α) → List (String × α)
  | [] => []
  | (k', v) :: rest => if k' = k then rest else (k', v) :: eraseKey k rest

/-- The seven scope-field overwrites on a matched existing attribute
(cm_generator.py lines 330-337).  `connU` / `glossU` stand for the results of
`_get_all_qualified_names("Connection")` / `("AtlasGlossary")`. -/
def applyScopes (connU glossU : Finset String) (d : AttributeDef) (c : AttrConfig) : AttributeDef :=
  { d with
    applicable_connections := resolveScope connU c.applicable_connections
    applicable_glossaries := resolveScope glossU c.applicable_glossaries
    applicable_domains := resolveScope _all_domains c.applicable_domains
    applicable_asset_types := resolveScope _complete_type_list c.applicable_asset_types
    applicable_glossary_types := resolveScope _all_glossary_types c.applicable_glossary_types
    applicable_domain_types := resolveScope _all_domain_types c.applicable_domain_types
    applicable_other_asset_types := resolveScope _all_other_types c.applicable_other_asset_types }

/-- The `AttributeDef.create(...)` call as cm_generator.py issues it
(lines 350-363 and 380-392): display name from the config key, primitive
type via `mapping.get(attr.get("type"))`, and the same per-category scope
resolution as the update branch. -/
def AttributeDef.create (connU glossU : Finset String) (key : String) (c : AttrConfig) : AttributeDef :=
  { display_name := key
    attribute_type := c.type.bind (fun s => lookupStr s mapping)
    options_name := c.options
    multi_valued := c.multivalue
    applicable_connections := resolveScope connU c.applicable_connections
    applicable_glossaries := resolveScope glossU c.applicable_glossaries
    applicable_domains := resolveScope _all_domains c.applicable_domains
    applicable_asset_types := resolveScope _complete_type_list c.applicable_asset_types
    applicable_glossary_types := resolveScope _all_glossary_types c.applicable_glossary_types
    applicable_domain_types := resolveScope _all_domain_types c.applicable_domain_types
    applicable_other_asset_types := resolveScope _all_other_types c.applicable_other_asset_types }

/-- The update-branch loop of cm_generator.py (lines 318-340): walk the
existing attribute definitions in order; an existing definition whose
display name is a key of the (remaining) desired mapping gets its scope
fields overwritten, the key is popped, and the definition is appended to
`defs`; an existing definition whose display name is not a remaining key is
NOT appended.  Returns the `defs` accumulated so far and what is left of the
desired mapping. -/
def reconcileLoop (connU glossU : Finset String) :
    List AttributeDef → List (String × AttrConfig) →
      List AttributeDef × List (String × AttrConfig)
  | [], desired => ([], desired)
  | d :: rest, desired =>
    match lookupStr d.display_name desired with
    | some c =>
      let p := reconcileLoop connU glossU rest (eraseKey d.display_name desired)
      (applyScopes connU glossU d c :: p.1, p.2)
    | none => reconcileLoop connU glossU rest desired

/-- The whole update-branch attribute computation of cm_generator.py
(lines 318-364): the loop over existing definitions followed by the loop
over the leftover desired entries (lines 341-363), which appends one newly
created `AttributeDef` per remaining key, in order. -/
def reconcile (connU glossU : Finset String) (existing : List AttributeDef)
    (desired : List (String × AttrConfig)) : List AttributeDef :=
  (reconcileLoop connU glossU existing desired).1 ++
    (reconcileLoop connU glossU existing desired).2.map
      (fun p => AttributeDef.create connU glossU p.1 p.2)

/-- One config item of the custom-metadata JSON, as cm_generator.py reads
it: `item.get("name")`, the `attributes` mapping, and whether the literal
keys `"icon"` / `"emoji"` are present (lines 395-400). -/
structure ConfigItem where
  name : Option String := none
  attributes : List (String × AttrConfig) := []
  hasIcon : Bool := false
  hasEmoji : Bool := false
deriving DecidableEq

/-- The SDK custom-metadata definition object, as the script touches it:
its display name and its attribute-definition list. -/
structure CustomMetadataDef where
  display_name : Option String := none
  attribute_defs : List AttributeDef := []
deriving DecidableEq

/-- Outcome of the existence check for one item
(`client.custom_metadata_cache.get_custom_metadata_def` in cm_generator.py
lines 311-314, `client.typedef.get_by_name` in options_generator.py lines
111-114): a definition was returned, a `NotFoundError` was raised (the only
exception type the scripts catch there), or some other exception was
raised. -/
inductive LookupOutcome (α : Type) where
  | found (d : α)
  | notFound
  | otherError (e : String)
deriving DecidableEq

/-- A remote write the script asks the SDK to perform
(`client.typedef.create` / `client.typedef.update`). -/
inductive RemoteAction where
  | createDef (d : CustomMetadataDef)
  | updateDef (d : CustomMetadataDef)
deriving DecidableEq

/-- The per-item decision of cm_generator.py `main` (lines 310-405):
a non-NotFound lookup exception propagates (there is no handler); a found
definition takes the update branch, whose attribute list is replaced by the
reconciler output and which is always sent to `client.typedef.update`; a
NotFoundError takes the create branch, which builds every attribute with
`AttributeDef.create`, then `continue`s (skips the remote create) when the
item has an `"icon"` or `"emoji"` key, and otherwise sends the new
definition to `client.typedef.create`. -/
def processItem (connU glossU : Finset String) (lk : LookupOutcome CustomMetadataDef)
    (item : ConfigItem) : Except String (Option RemoteAction) :=
  match lk with
  | .otherError e => .error e
  | .found existing =>
    .ok (some (.updateDef { existing with
      attribute_defs := reconcile connU glossU existing.attribute_defs item.attributes }))
  | .notFound =>
    let defs := item.attributes.map (fun p => AttributeDef.create connU glossU p.1 p.2)
    if item.hasIcon then .ok none
    else if item.hasEmoji then .ok none
    else .ok (some (.createDef { display_name := item.name, attribute_defs := defs }))

/-- Outcome of the remote write itself. -/
inductive WriteOutcome where
  | ok
  | err (e : String)
deriving DecidableEq

/-- One item of cm_generator.py `main` including its remote write: if the
item produced an action and the write raises, the exception propagates —
the loop body has no try/except around the create/update calls. -/
def processItemFull (connU glossU : Finset String) (lk : LookupOutcome CustomMetadataDef)
    (wr : WriteOutcome) (item : ConfigItem) : Except String (Option RemoteAction) :=
  match processItem connU glossU lk item with
  | .error e => .error e
  | .ok none => .ok none
  | .ok (some a) =>
    match wr with
    | .ok => .ok (some a)
    | .err e => .error e

/-- The item loop of cm_generator.py `main` (lines 310-405): items are
processed in order and any uncaught exception aborts the remaining
iterations; on full success the list of issued remote actions results. -/
def runCM (connU glossU : Finset String) :
    List (ConfigItem × LookupOutcome CustomMetadataDef × WriteOutcome) →
      Except String (List RemoteAction)
  | [] => .ok []
  | (item, lk, wr) :: rest =>
    match processItemFull connU glossU lk wr item with
    | .error e => .error e
    | .ok none => runCM connU glossU rest
    | .ok (some a) =>
      match runCM connU glossU rest with
      | .error e => .error e
      | .ok as => .ok (a :: as)

/-- One enumeration config item of options_generator.py
(`item.get("name")`, `item.get("values")`). -/
structure EnumItem where
  name : Option String := none
  values : Option (List String) := none
deriving DecidableEq

/-- The enum typedef object returned by `client.typedef.get_by_name`. -/
structure EnumTypeDef where
  name : String
deriving DecidableEq

/-- A remote write of options_generator.py: `EnumDef.create(name, values)`
sent to `client.typedef.create`, or
`EnumDef.update(name, values, replace_existing=True)` sent to
`client.typedef.update`. -/
inductive EnumAction where
  | createEnum (name : Option String) (values : Option (List String))
  | updateEnum (name : Option String) (values : Option (List String)) (replace_existing : Bool)
deriving DecidableEq

/-- The per-item decision of options_generator.py `main` (lines 109-132):
only `NotFoundError` is caught on the existence check; a found definition is
updated with `replace_existing=True`, an absent one is created, any other
lookup exception propagates. -/
def processEnumItem (lk : LookupOutcome EnumTypeDef) (item : EnumItem) :
    Except String EnumAction :=
  match lk with
  | .otherError e => .error e
  | .found _ => .ok (.updateEnum item.name item.values true)
  | .notFound => .ok (.createEnum item.name item.values)

/-- One tag entry of the YAML config of createTags.py: `type` and `name`
are accessed unconditionally (lines 96-97); the remaining keys through
plain indexing inside the guarded branches, so their absence raises a
`KeyError` that the generic handler catches. -/
structure TagConfig where
  type : String
  name : String
  color : Option String := none
  emoji : Option String := none
  icon_name : Option String := none
  description : Option String := none
deriving DecidableEq

/-- The tag definition object `AtlanTagDef.create(...)` builds, as
createTags.py populates it per branch (lines 100-116). -/
structure AtlanTagDef where
  name : String
  color : Option String := none
  emoji : Option String := none
  icon : Option String := none
  description : Option String := none
deriving DecidableEq

/-- Outcome of `client.typedef.create` for a tag. -/
inductive TagOutcome where
  | success
  | remoteError (e : String)
deriving DecidableEq

/-- `create_tag_from_config` of createTags.py (lines 85-123).  The result
records (1) the tag definition handed to `client.typedef.create`, if that
call was reached, and (2) the function's return value.  A `type` that is
none of "color"/"emoji"/"icon" leaves `tag_def` unbound, so evaluating the
argument of `client.typedef.create(tag_def)` raises before any call is
made; the generic `except` prints the error and returns `None`.  A missing
required key in a taken branch raises a `KeyError` with the same effect.
A remote error from the create call is caught the same way. -/
def create_tag_from_config (o : TagOutcome) (cfg : TagConfig) :
    Option AtlanTagDef × Option String :=
  if cfg.type = "color" then
    match cfg.color with
    | none => (none, none)
    | some col =>
      let d : AtlanTagDef := { name := cfg.name, color := some col }
      (some d, match o with | .success => some cfg.name | .remoteError _ => none)
  else if cfg.type = "emoji" then
    match cfg.color, cfg.emoji with
    | some col, some em =>
      let d : AtlanTagDef := { name := cfg.name, color := some col, emoji := some em }
      (some d, match o with | .success => some cfg.name | .remoteError _ => none)
    | _, _ => (none, none)
  else if cfg.type = "icon" then
    match cfg.icon_name, cfg.description with
    | some ic, some desc =>
      let d : AtlanTagDef := { name := cfg.name, icon := some ic, description := some desc }
      (some d, match o with | .success => some cfg.name | .remoteError _ => none)
    | _, _ => (none, none)
  else (none, none)

/-- The tag loop of createTags.py `main` (lines 136-141): collect exactly
the non-None return values of `create_tag_from_config`; the final summary
(lines 143-145) prints exactly this list. -/
def runTags (items : List (TagConfig × TagOutcome)) : List String :=
  items.filterMap (fun p => (create_tag_from_config p.2 p.1).2)

/-- The process environment as the scripts see it (`os.getenv`). -/
structure Env where
  ATLAN_API_KEY : Option String := none
  ATLAN_TENANT : Option String := none
deriving DecidableEq

/-- The client configuration (`AtlanClient(base_url=..., api_key=...)`). -/
structure ClientCfg where
  base_url : String
  api_key : String
deriving DecidableEq

/-- The module-level guard of createTags.py (lines 56-60): `os.getenv` gives
`None` for an unset variable, and `not x` is true for `None` and for the
empty string; either raises the ValueError before anything else runs. On
success the client is built from the two variables (lines 127-130). -/
def createTags_init (env : Env) : Except String ClientCfg :=
  if env.ATLAN_API_KEY.getD "" = "" ∨ env.ATLAN_TENANT.getD "" = "" then
    .error "Please set ATLAN_API_KEY and ATLAN_TENANT environment variables"
  else .ok { base_url := env.ATLAN_TENANT.getD "", api_key := env.ATLAN_API_KEY.getD "" }

/-- Client construction in cm_generator.py `main` (lines 305-308): literal
`AtlanClient(base_url="", api_key="")`, ignoring the environment; there is
no environment check anywhere in the script. -/
def cm_generator_client (_env : Env) : Except String ClientCfg :=
  .ok { base_url := "", api_key := "" }

/-- Client construction in options_generator.py `main` (lines 104-107):
literal `AtlanClient(base_url="", api_key="")`, ignoring the environment;
there is no environment check anywhere in the script. -/
def options_generator_client (_env : Env) : Except String ClientCfg :=
  .ok { base_url := "", api_key := "" }

/-- createTags.py as a whole: the module-level environment guard runs when
the module loads, before `main` reads the YAML file or creates any tag. -/
def createTags_script (env : Env) (items : List (TagConfig × TagOutcome)) :
    Except String (List String) :=
  match createTags_init env with
  | .error e => .error e
  | .ok _ => .ok (runTags items)

/- Concrete inputs used by witnesses and counterexamples. -/

/-- A desired-attribute config with type "Text" and no applicability keys. -/
def cfgT : AttrConfig := { type := some "Text" }

/-- A desired-attribute config whose `type` is not a key of `mapping`. -/
def cfgUnknown : AttrConfig := { type := some "unknown" }

/-- An existing remote attribute named "A". -/
def attrA : AttributeDef := { display_name := "A", attribute_type := some .STRING }

/-- A second existing remote attribute with the same display name "A". -/
def attrA2 : AttributeDef := { display_name := "A", attribute_type := some .BOOLEAN }

/-- An existing custom-metadata definition with no attributes. -/
def existingCM : CustomMetadataDef := { display_name := some "CM1" }

/-- An existing custom-metadata definition with duplicate display names. -/
def dupCM : CustomMetadataDef := { display_name := some "CM4", attribute_defs := [attrA, attrA2] }

/-- A config item carrying an `"icon"` key. -/
def itemIcon : ConfigItem := { name := some "CM1", hasIcon := true }

/-- A plain config item with no attributes and no icon/emoji key. -/
def itemPlain : ConfigItem := { name := some "CM2" }

/-- A config item whose single attribute has an unknown `type`. -/
def itemUnknown : ConfigItem := { name := some "CM3", attributes := [("attr1", cfgUnknown)] }

/-- A config item desiring exactly attribute "A". -/
def itemA : ConfigItem := { name := some "CM4", attributes := [("A", cfgT)] }

/-- Another plain config item. -/
def itemOk : ConfigItem := { name := some "CM5" }

/-- An enum config item. -/
def enumItem1 : EnumItem := { name := some "E1", values := some ["a", "b"] }

/-- An existing enum typedef. -/
def enumDef1 : EnumTypeDef := { name := "E1" }

/-- A tag config whose `type` matches no branch of createTags.py. -/
def tagUnknown : TagConfig := { type := "gradient", name := "T1" }

/- Helper lemmas about the dict operations and the reconciler. -/

/-- Unfolding of `lookupStr` on a cons cell. -/
theorem lookupStr_cons {α : Type} (k k' : String) (v : α) (rest : List (String × α)) :
    lookupStr k ((k', v) :: rest) = if k' = k then some v else lookupStr k rest := rfl

/-- Unfolding of `eraseKey` on a cons cell. -/
theorem eraseKey_cons {α : Type} (k k' : String) (v : α) (rest : List (String × α)) :
    eraseKey k ((k', v) :: rest) = if k' = k then rest else (k', v) :: eraseKey k rest := rfl

/-- A successful lookup means the key is among the keys. -/
theorem mem_keys_of_lookupStr {α : Type} {k : String} {v : α} :
    ∀ {l : List (String × α)}, lookupStr k l = some v → k ∈ l.map Prod.fst := by
  intro l
  induction l with
  | nil => intro h; simp [lookupStr] at h
  | cons p rest ih =>
    obtain ⟨k', v'⟩ := p
    intro h
    by_cases hk : k' = k
    · subst hk; simp
    · rw [lookupStr_cons, if_neg hk] at h
      simp [ih h]

/-- A key among the keys looks up successfully. -/
theorem exists_lookupStr_of_mem_keys {α : Type} {k : String} :
    ∀ {l : List (String × α)}, k ∈ l.map Prod.fst → ∃ v, lookupStr k l = some v := by
  intro l
  induction l with
  | nil => intro h; simp at h
  | cons p rest ih =>
    obtain ⟨k', v'⟩ := p
    intro h
    by_cases hk : k' = k
    · exact ⟨v', by rw [lookupStr_cons, if_pos hk]⟩
    · have hmem : k ∈ rest.map Prod.fst := by
        rw [List.map_cons] at h
        rcases List.mem_cons.mp h with h1 | h1
        · exact absurd h1.symm hk
        · exact h1
      obtain ⟨v, hv⟩ := ih hmem
      exact ⟨v, by rw [lookupStr_cons, if_neg hk, hv]⟩

/-- With distinct keys, membership determines the lookup. -/
theorem lookupStr_of_nodup_mem {α : Type} {k : String} {v : α} :
    ∀ {l : List (String × α)}, (l.map Prod.fst).Nodup → (k, v) ∈ l →
      lookupStr k l = some v := by
  intro l
  induction l with
  | nil => intro _ h; simp at h
  | cons p rest ih =>
    obtain ⟨k', v'⟩ := p
    intro hnd hm
    have hnd' : k' ∉ rest.map Prod.fst ∧ (rest.map Prod.fst).Nodup := by
      simpa using hnd
    rcases List.mem_cons.mp hm with h1 | h1
    · rw [Prod.mk.injEq] at h1
      obtain ⟨rfl, rfl⟩ := h1
      rw [lookupStr_cons, if_pos rfl]
    · have hk : k' ≠ k := by
        intro hkk
        subst hkk
        exact hnd'.1 (List.mem_map.mpr ⟨(k', v), h1, rfl⟩)
      rw [lookupStr_cons, if_neg hk]
      exact ih hnd'.2 h1

/-- Popping a key yields a sublist. -/
theorem eraseKey_sublist {α : Type} (k : String) :
    ∀ (l : List (String × α)), List.Sublist (eraseKey k l) l := by
  intro l
  induction l with
  | nil => simp [eraseKey]
  | cons p rest ih =>
    obtain ⟨k', v'⟩ := p
    by_cases hk : k' = k
    · rw [eraseKey_cons, if_pos hk]
      exact List.sublist_cons_self _ _
    · rw [eraseKey_cons, if_neg hk]
      exact ih.cons₂ _

/-- Popping a key preserves distinctness of the keys. -/
theorem keys_eraseKey_nodup {α : Type} {k : String} {l : List (String × α)}
    (h : (l.map Prod.fst).Nodup) : ((eraseKey k l).map Prod.fst).Nodup :=
  List.Nodup.sublist ((eraseKey_sublist k l).map Prod.fst) h

/-- Popping a present key rearranges the key list to put that key first. -/
theorem keys_perm_eraseKey {α : Type} {k : String} :
    ∀ {l : List (String × α)}, k ∈ l.map Prod.fst →
      (l.map Prod.fst).Perm (k :: (eraseKey k l).map Prod.fst) := by
  intro l
  induction l with
  | nil => intro h; simp at h
  | cons p rest ih =>
    obtain ⟨k', v'⟩ := p
    intro h
    by_cases hk : k' = k
    · subst hk
      rw [eraseKey_cons, if_pos rfl]
      simp [List.Perm.refl]
    · rw [eraseKey_cons, if_neg hk]
      have hmem : k ∈ rest.map Prod.fst := by
        rw [List.map_cons] at h
        rcases List.mem_cons.mp h with h1 | h1
        · exact absurd h1.symm hk
        · exact h1
      have hrec := ih hmem
      simp only [List.map_cons]
      exact (hrec.cons k').trans (List.Perm.swap k k' _)

/-- Popping one key does not change the lookup of a different key. -/
theorem lookupStr_eraseKey {α : Type} {k k' : String} (h : k ≠ k') :
    ∀ (l : List (String × α)), lookupStr k (eraseKey k' l) = lookupStr k l := by
  intro l
  induction l with
  | nil => rfl
  | cons p rest ih =>
    obtain ⟨k₁, v₁⟩ := p
    by_cases h1 : k₁ = k'
    · rw [eraseKey_cons, if_pos h1, lookupStr_cons, if_neg (fun hh => h (hh.symm.trans h1))]
    · by_cases h2 : k₁ = k
      · rw [eraseKey_cons, if_neg h1, lookupStr_cons, if_pos h2, lookupStr_cons, if_pos h2]
      · rw [eraseKey_cons, if_neg h1, lookupStr_cons, if_neg h2, lookupStr_cons, if_neg h2, ih]

/-- With distinct keys, a popped key is gone from the keys. -/
theorem not_mem_keys_eraseKey {α : Type} {k : String} :
    ∀ {l : List (String × α)}, (l.map Prod.fst).Nodup → k ∉ (eraseKey k l).map Prod.fst := by
  intro l
  induction l with
  | nil => intro _ h; simp [eraseKey] at h
  | cons p rest ih =>
    obtain ⟨k₁, v₁⟩ := p
    intro hnd
    have hnd' : k₁ ∉ rest.map Prod.fst ∧ (rest.map Prod.fst).Nodup := by
      simpa using hnd
    by_cases h1 : k₁ = k
    · rw [eraseKey_cons, if_pos h1]
      subst h1
      exact hnd'.1
    · rw [eraseKey_cons, if_neg h1]
      intro hmem
      rw [List.map_cons] at hmem
      rcases List.mem_cons.mp hmem with h2 | h2
      · exact h1 h2.symm
      · exact ih hnd'.2 h2

/-- Reconciling with no existing attributes creates one attribute per
desired entry, in order. -/
theorem reconcile_nil (connU glossU : Finset String) (des : List (String × AttrConfig)) :
    reconcile connU glossU [] des
      = des.map (fun p => AttributeDef.create connU glossU p.1 p.2) := rfl

/-- Reconciler step on a matched existing attribute: overwrite its scopes,
keep it, pop its key. -/
theorem reconcile_cons_match {d : AttributeDef} {des : List (String × AttrConfig)}
    {c : AttrConfig} (connU glossU : Finset String) (rest : List AttributeDef)
    (h : lookupStr d.display_name des = some c) :
    reconcile connU glossU (d :: rest) des
      = applyScopes connU glossU d c
          :: reconcile connU glossU rest (eraseKey d.display_name des) := by
  simp only [reconcile, reconcileLoop, h, List.cons_append]

/-- Reconciler step on an unmatched existing attribute: it is dropped. -/
theorem reconcile_cons_nomatch {d : AttributeDef} {des : List (String × AttrConfig)}
    (connU glossU : Finset String) (rest : List AttributeDef)
    (h : lookupStr d.display_name des = none) :
    reconcile connU glossU (d :: rest) des = reconcile connU glossU rest des := by
  simp only [reconcile, reconcileLoop, h]

/-- Overwriting scopes does not change the display name. -/
theorem applyScopes_display_name (connU glossU : Finset String) (d : AttributeDef)
    (c : AttrConfig) : (applyScopes connU glossU d c).display_name = d.display_name := rfl

/-- A created attribute carries its config key as display name. -/
theorem create_display_name (connU glossU : Finset String) (k : String) (c : AttrConfig) :
    (AttributeDef.create connU glossU k c).display_name = k := rfl

/-- Overwriting scopes twice is the same as overwriting once with the last
config. -/
theorem applyScopes_applyScopes (connU glossU : Finset String) (d : AttributeDef)
    (c' c : AttrConfig) :
    applyScopes connU glossU (applyScopes connU glossU d c') c
      = applyScopes connU glossU d c := rfl

/-- Overwriting the scopes of a freshly created attribute with its own
config changes nothing. -/
theorem applyScopes_create (connU glossU : Finset String) (k : String) (c : AttrConfig) :
    applyScopes connU glossU (AttributeDef.create connU glossU k c) c
      = AttributeDef.create connU glossU k c := rfl

/-- The display names of the reconciler output are a permutation of the
keys of the desired mapping (assuming those keys are distinct, as a Python
dict guarantees). -/
theorem reconcile_keys_perm (connU glossU : Finset String) :
    ∀ (ex : List AttributeDef) (des : List (String × AttrConfig)),
      (des.map Prod.fst).Nodup →
      ((reconcile connU glossU ex des).map AttributeDef.display_name).Perm
        (des.map Prod.fst) := by
  intro ex
  induction ex with
  | nil =>
    intro des _
    rw [reconcile_nil]
    have heq : (des.map (fun p => AttributeDef.create connU glossU p.1 p.2)).map
        AttributeDef.display_name = des.map Prod.fst := by
      induction des with
      | nil => rfl
      | cons p rest ih => simp [ih, create_display_name]
    rw [heq]
  | cons d rest ih =>
    intro des hnd
    cases hc : lookupStr d.display_name des with
    | none =>
      rw [reconcile_cons_nomatch connU glossU rest hc]
      exact ih des hnd
    | some c =>
      rw [reconcile_cons_match connU glossU rest hc]
      have hk : d.display_name ∈ des.map Prod.fst := mem_keys_of_lookupStr hc
      have h1 := ih (eraseKey d.display_name des) (keys_eraseKey_nodup hnd)
      have h2 := keys_perm_eraseKey hk
      simp only [List.map_cons, applyScopes_display_name]
      exact (h1.cons d.display_name).trans h2.symm

/-- Every attribute in the reconciler output is already fixed by its own
desired config: overwriting its scopes again changes nothing. -/
theorem reconcile_mem_fixed (connU glossU : Finset String) :
    ∀ (ex : List AttributeDef) (des : List (String × AttrConfig)),
      (des.map Prod.fst).Nodup →
      ∀ d' ∈ reconcile connU glossU ex des, ∀ c,
        lookupStr d'.display_name des = some c →
        applyScopes connU glossU d' c = d' := by
  intro ex
  induction ex with
  | nil =>
    intro des hnd d' hd' c hc
    rw [reconcile_nil] at hd'
    obtain ⟨⟨k, v⟩, hm, rfl⟩ := List.mem_map.mp hd'
    have hv : lookupStr (AttributeDef.create connU glossU k v).display_name des = some v := by
      rw [create_display_name]
      exact lookupStr_of_nodup_mem hnd hm
    rw [hv] at hc
    injection hc with hvc
    subst hvc
    exact applyScopes_create connU glossU k v
  | cons d rest ih =>
    intro des hnd d' hd' c hc
    cases hm : lookupStr d.display_name des with
    | none =>
      rw [reconcile_cons_nomatch connU glossU rest hm] at hd'
      exact ih des hnd d' hd' c hc
    | some c0 =>
      rw [reconcile_cons_match connU glossU rest hm] at hd'
      rcases List.mem_cons.mp hd' with h1 | h1
      · subst h1
        rw [applyScopes_display_name, hm] at hc
        injection hc with hcc
        subst hcc
        exact applyScopes_applyScopes connU glossU d c0 c0
      · have hdn : d'.display_name ∈ (eraseKey d.display_name des).map Prod.fst := by
          have hperm := reconcile_keys_perm connU glossU rest (eraseKey d.display_name des)
            (keys_eraseKey_nodup hnd)
          exact hperm.mem_iff.mp (List.mem_map.mpr ⟨d', h1, rfl⟩)
        have hne : d'.display_name ≠ d.display_name := by
          intro he
          rw [he] at hdn
          exact not_mem_keys_eraseKey hnd hdn
        have hc' : lookupStr d'.display_name (eraseKey d.display_name des) = some c := by
          rw [lookupStr_eraseKey hne]
          exact hc
        exact ih (eraseKey d.display_name des) (keys_eraseKey_nodup hnd) d' h1 c hc'

/-- A list of attributes whose names exactly exhaust the desired keys and
whose members are all fixed by their configs is a fixed point of the
reconciler. -/
theorem reconcile_fixed (connU glossU : Finset String) :
    ∀ (l : List AttributeDef) (des : List (String × AttrConfig)),
      (des.map Prod.fst).Nodup →
      (l.map AttributeDef.display_name).Perm (des.map Prod.fst) →
      (∀ d ∈ l, ∀ c, lookupStr d.display_name des = some c →
          applyScopes connU glossU d c = d) →
      reconcile connU glossU l des = l := by
  intro l
  induction l with
  | nil =>
    intro des _ hperm _
    have h1 : des.map Prod.fst = [] := by
      have h0 : List.Perm ([] : List String) (des.map Prod.fst) := by simpa using hperm
      exact h0.symm.eq_nil
    have h2 : des = [] := List.map_eq_nil_iff.mp h1
    subst h2
    rfl
  | cons d rest ih =>
    intro des hnd hperm hfix
    have hk : d.display_name ∈ des.map Prod.fst := by
      apply hperm.mem_iff.mp
      simp
    obtain ⟨c, hc⟩ := exists_lookupStr_of_mem_keys hk
    rw [reconcile_cons_match connU glossU rest hc]
    have hd : applyScopes connU glossU d c = d := hfix d (List.mem_cons_self d rest) c hc
    have hperm' : (rest.map AttributeDef.display_name).Perm
        ((eraseKey d.display_name des).map Prod.fst) := by
      have h2 := keys_perm_eraseKey hk
      have h3 := hperm.trans h2
      simp only [List.map_cons] at h3
      exact h3.cons_inv
    have hfix' : ∀ d' ∈ rest, ∀ c', lookupStr d'.display_name (eraseKey d.display_name des)
        = some c' → applyScopes connU glossU d' c' = d' := by
      intro d' hd' c' hc'
      have hdn : d'.display_name ∈ (eraseKey d.display_name des).map Prod.fst :=
        mem_keys_of_lookupStr hc'
      have hne : d'.display_name ≠ d.display_name := by
        intro he
        rw [he] at hdn
        exact not_mem_keys_eraseKey hnd hdn
      have hl : lookupStr d'.display_name des = some c' := by
        rw [← lookupStr_eraseKey hne]
        exact hc'
      exact hfix d' (List.mem_cons_of_mem d hd') c' hl
    rw [ih (eraseKey d.display_name des) (keys_eraseKey_nodup hnd) hperm' hfix', hd]

/- Claim theorems, counterexamples and witnesses. -/

/-- C1 (counterexample): the claim says the reconciled list covers one
attribute per display name across the UNION of existing and desired, with
existing attributes not mentioned in desired passing through unchanged
(implicit retain).  With existing = [attrA] (display name "A") and desired
= {"B": cfgT}, "A" is in the union but no attribute named "A" survives into
the reconciled output: the update loop appends an existing definition only
when its display name is a desired key, so unmatched existing attributes
are dropped. -/
theorem reconcile_drops_unmatched_existing :
    "A" ∈ ([attrA].map AttributeDef.display_name)
    ∧ "A" ∉ ((reconcile ∅ ∅ [attrA] [("B", cfgT)]).map AttributeDef.display_name) := by
  decide

/-- C1 (amended): existing attributes whose display name appears in desired
are updated in place and kept, desired names not present in existing are
appended as new, and existing attributes whose display name does not appear
in desired are DROPPED — so (for a desired mapping with distinct keys, as a
Python dict guarantees) the reconciled list contains exactly one
AttributeSpec per distinct display name of the desired mapping, not of the
union: its display names are a permutation of the desired keys and are
duplicate-free. -/
theorem reconcile_display_names_exact (connU glossU : Finset String)
    (ex : List AttributeDef) (des : List (String × AttrConfig))
    (hnd : (des.map Prod.fst).Nodup) :
    ((reconcile connU glossU ex des).map AttributeDef.display_name).Perm
        (des.map Prod.fst)
    ∧ ((reconcile connU glossU ex des).map AttributeDef.display_name).Nodup :=
  ⟨reconcile_keys_perm connU glossU ex des hnd,
   ((reconcile_keys_perm connU glossU ex des hnd).nodup_iff).mpr hnd⟩

/-- Witness for C1 (amended) at existing = [attrA], desired = {"B": cfgT}. -/
theorem reconcile_display_names_exact_witness :
    ((([("B", cfgT)] : List (String × AttrConfig)).map Prod.fst).Nodup)
    ∧ (((reconcile ∅ ∅ [attrA] [("B", cfgT)]).map AttributeDef.display_name).Perm
          (([("B", cfgT)] : List (String × AttrConfig)).map Prod.fst)
       ∧ ((reconcile ∅ ∅ [attrA] [("B", cfgT)]).map AttributeDef.display_name).Nodup) :=
  ⟨by decide, reconcile_display_names_exact ∅ ∅ [attrA] [("B", cfgT)] (by decide)⟩

/-- C3: reconciliation is idempotent: with the same desired mapping (its
keys distinct, as a Python dict guarantees) and the same lookup results,
running the reconciler on its own prior output reproduces that output
exactly — in particular every scope set is unchanged on the second pass. -/
theorem reconcile_idem (connU glossU : Finset String) (ex : List AttributeDef)
    (des : List (String × AttrConfig)) (hnd : (des.map Prod.fst).Nodup) :
    reconcile connU glossU (reconcile connU glossU ex des) des
      = reconcile connU glossU ex des :=
  reconcile_fixed connU glossU (reconcile connU glossU ex des) des hnd
    (reconcile_keys_perm connU glossU ex des hnd)
    (fun d' hd' c hc => reconcile_mem_fixed connU glossU ex des hnd d' hd' c hc)

/-- Witness for C3 at existing = [attrA], desired = {"A": cfgT, "C": cfgT}. -/
theorem reconcile_idem_witness :
    ((([("A", cfgT), ("C", cfgT)] : List (String × AttrConfig)).map Prod.fst).Nodup)
    ∧ reconcile ∅ ∅ (reconcile ∅ ∅ [attrA] [("A", cfgT), ("C", cfgT)])
          [("A", cfgT), ("C", cfgT)]
        = reconcile ∅ ∅ [attrA] [("A", cfgT), ("C", cfgT)] :=
  ⟨by decide, reconcile_idem ∅ ∅ [attrA] [("A", cfgT), ("C", cfgT)] (by decide)⟩

/-- C9: in the update path, the display names of the persisted attribute
list are exactly the keys of the desired mapping, each occurring exactly
once — even when the existing definition contains duplicate display names —
and no display name outside the desired mapping survives. -/
theorem update_path_display_names (connU glossU : Finset String)
    (ex : CustomMetadataDef) (item : ConfigItem) (u : CustomMetadataDef)
    (hnd : (item.attributes.map Prod.fst).Nodup)
    (h : processItem connU glossU (.found ex) item = .ok (some (.updateDef u))) :
    (u.attribute_defs.map AttributeDef.display_name).Perm (item.attributes.map Prod.fst)
    ∧ (u.attribute_defs.map AttributeDef.display_name).Nodup := by
  simp only [processItem, Except.ok.injEq, Option.some.injEq,
    RemoteAction.updateDef.injEq] at h
  subst h
  refine ⟨reconcile_keys_perm connU glossU ex.attribute_defs item.attributes hnd, ?_⟩
  exact ((reconcile_keys_perm connU glossU ex.attribute_defs item.attributes hnd).nodup_iff).mpr hnd

/-- Witness for C9 at an existing definition with duplicate display names
("A" twice) and desired mapping {"A": cfgT}. -/
theorem update_path_display_names_witness :
    ((itemA.attributes.map Prod.fst).Nodup)
    ∧ (((reconcile ∅ ∅ dupCM.attribute_defs itemA.attributes).map
          AttributeDef.display_name).Perm (itemA.attributes.map Prod.fst)
      ∧ ((reconcile ∅ ∅ dupCM.attribute_defs itemA.attributes).map
          AttributeDef.display_name).Nodup) :=
  ⟨by decide,
   update_path_display_names ∅ ∅ dupCM itemA
     { dupCM with attribute_defs := reconcile ∅ ∅ dupCM.attribute_defs itemA.attributes }
     (by decide) rfl⟩

/-- C2 (counterexample): the claim says any input other than exactly the
one-element list ["all"] resolves to the literal set of its elements.  The
code compares only the FIRST element against "all": in the domains
category, the input ["all", "x"] resolves to the full domains universe
{"*/super"}, not to the literal set {"all", "x"}. -/
theorem scope_all_first_element_cex :
    (AttributeDef.create ∅ ∅ "a"
        { cfgT with applicable_domains := some ["all", "x"] }).applicable_domains
      ≠ (["all", "x"] : List String).toFinset := by
  decide

/-- C2 (amended): scope resolution per category: absent/None/empty input
gives the empty set; a non-empty list whose FIRST element is "all"
(whatever its length) gives the full universe of the category; any other
non-empty list gives the literal set of its elements.  The per-category
universes are wired as in the source: connections and glossaries use the
live-lookup results, the other five categories use the static sets; both
the create sites and the update-path overwrites use the same rule. -/
theorem scope_resolution (u : Finset String) :
    resolveScope u none = ∅
    ∧ resolveScope u (some []) = ∅
    ∧ (∀ xs : List String, resolveScope u (some ("all" :: xs)) = u)
    ∧ (∀ (x : String) (xs : List String), x ≠ "all" →
        resolveScope u (some (x :: xs)) = (x :: xs).toFinset)
    ∧ (∀ (connU glossU : Finset String) (k : String) (c : AttrConfig),
        (AttributeDef.create connU glossU k c).applicable_connections
            = resolveScope connU c.applicable_connections
        ∧ (AttributeDef.create connU glossU k c).applicable_glossaries
            = resolveScope glossU c.applicable_glossaries
        ∧ (AttributeDef.create connU glossU k c).applicable_domains
            = resolveScope _all_domains c.applicable_domains
        ∧ (AttributeDef.create connU glossU k c).applicable_asset_types
            = resolveScope _complete_type_list c.applicable_asset_types
        ∧ (AttributeDef.create connU glossU k c).applicable_glossary_types
            = resolveScope _all_glossary_types c.applicable_glossary_types
        ∧ (AttributeDef.create connU glossU k c).applicable_domain_types
            = resolveScope _all_domain_types c.applicable_domain_types
        ∧ (AttributeDef.create connU glossU k c).applicable_other_asset_types
            = resolveScope _all_other_types c.applicable_other_asset_types)
    ∧ (∀ (connU glossU : Finset String) (d : AttributeDef) (c : AttrConfig),
        (applyScopes connU glossU d c).applicable_connections
            = resolveScope connU c.applicable_connections
        ∧ (applyScopes connU glossU d c).applicable_asset_types
            = resolveScope _complete_type_list c.applicable_asset_types) := by
  refine ⟨rfl, rfl, fun xs => ?_, fun x xs hx => ?_, ?_, ?_⟩
  · simp [resolveScope]
  · simp [resolveScope, hx]
  · intro connU glossU k c
    exact ⟨rfl, rfl, rfl, rfl, rfl, rfl, rfl⟩
  · intro connU glossU d c
    exact ⟨rfl, rfl⟩

/-- Witness for C2 (amended): the literal branch at input ["Table"]. -/
theorem scope_resolution_witness :
    ("Table" : String) ≠ "all"
    ∧ resolveScope (∅ : Finset String) (some ["Table"])
        = (["Table"] : List String).toFinset :=
  ⟨by decide, (scope_resolution ∅).2.2.2.1 "Table" [] (by decide)⟩

/-- C4 (counterexample): the claim says an entry with an unknown `type`
string fails fast with a descriptive configuration error and no remote
create/update call is made for it.  The script performs no such validation:
`mapping.get` silently yields None for the unknown string, the attribute is
built with no primitive type, and the create path still issues the remote
create call for the item. -/
theorem unknown_type_no_failfast_cex :
    processItem ∅ ∅ .notFound itemUnknown
      = .ok (some (.createDef
          { display_name := some "CM3",
            attribute_defs := [{ display_name := "attr1" }] })) := rfl

/-- C4 (amended): entries with unknown (or missing) `type` strings and
missing names are not rejected by the script: the create branch always
issues the remote create call (absent an icon/emoji key), passing the
unvalidated name through, and an attribute whose `type` is not a key of
`mapping` is built with `attribute_type = None`.  Any rejection of such an
attribute happens inside the vendor SDK, not in this repository's code. -/
theorem unknown_type_not_rejected (connU glossU : Finset String) (item : ConfigItem)
    (h1 : item.hasIcon = false) (h2 : item.hasEmoji = false) :
    processItem connU glossU .notFound item
      = .ok (some (.createDef
          { display_name := item.name,
            attribute_defs := item.attributes.map
              (fun p => AttributeDef.create connU glossU p.1 p.2) }))
    ∧ (∀ (k : String) (c : AttrConfig),
        c.type.bind (fun s => lookupStr s mapping) = none →
        (AttributeDef.create connU glossU k c).attribute_type = none) := by
  constructor
  · simp [processItem, h1, h2]
  · intro k c hc
    simp [AttributeDef.create, hc]

/-- Witness for C4 (amended) at the item with attribute type "unknown". -/
theorem unknown_type_not_rejected_witness :
    processItem ∅ ∅ .notFound itemUnknown
      = .ok (some (.createDef
          { display_name := some "CM3",
            attribute_defs := [AttributeDef.create ∅ ∅ "attr1" cfgUnknown] }))
    ∧ (AttributeDef.create ∅ ∅ "attr1" cfgUnknown).attribute_type = none :=
  ⟨(unknown_type_not_rejected ∅ ∅ itemUnknown rfl rfl).1,
   (unknown_type_not_rejected ∅ ∅ itemUnknown rfl rfl).2 "attr1" cfgUnknown (by decide)⟩

/-- C5 (counterexample): the claim says a per-item remote error is caught,
logged and skipped, with processing continuing on the next item, in every
script.  In cm_generator.py there is no per-item handler: a remote error on
the first item's write aborts the whole run and the second item is never
processed. -/
theorem cm_per_item_error_aborts_cex :
    runCM ∅ ∅ [(itemPlain, .notFound, .err "already exists"), (itemOk, .notFound, .ok)]
      = .error "already exists" := rfl

/-- C5 (amended): in createTags.py, per-item errors are caught and skipped
and the final summary lists exactly the names of the successfully created
tags; in cm_generator.py, only NotFoundError on the existence check is
caught — any other per-item error (for example a failed create/update)
propagates and aborts the remaining items. -/
theorem per_item_error_handling :
    (∀ (items : List (TagConfig × TagOutcome)) (n : String),
        n ∈ runTags items ↔ ∃ p ∈ items, (create_tag_from_config p.2 p.1).2 = some n)
    ∧ (∀ (connU glossU : Finset String) (item : ConfigItem)
        (lk : LookupOutcome CustomMetadataDef) (wr : WriteOutcome)
        (rest : List (ConfigItem × LookupOutcome CustomMetadataDef × WriteOutcome))
        (e : String), processItemFull connU glossU lk wr item = .error e →
          runCM connU glossU ((item, lk, wr) :: rest) = .error e) := by
  constructor
  · intro items n
    simp [runTags, List.mem_filterMap]
  · intro connU glossU item lk wr rest e h
    simp [runCM, h]

/-- Witness for C5 (amended): a failing write on a single item aborts the
run with that error. -/
theorem per_item_error_handling_witness :
    processItemFull ∅ ∅ .notFound (.err "boom") itemOk = .error "boom"
    ∧ runCM ∅ ∅ [(itemOk, .notFound, .err "boom")] = .error "boom" :=
  ⟨rfl, per_item_error_handling.2 ∅ ∅ itemOk .notFound (.err "boom") [] "boom" rfl⟩

/-- C6 (counterexample): the claim says every script reads ATLAN_API_KEY
and ATLAN_TENANT and aborts before doing any work when either is unset.
With both unset, cm_generator.py and options_generator.py do not abort:
each constructs its client with hard-coded empty credentials, ignoring the
environment entirely. -/
theorem env_not_checked_cex :
    cm_generator_client { ATLAN_API_KEY := none, ATLAN_TENANT := none }
      = .ok { base_url := "", api_key := "" }
    ∧ options_generator_client { ATLAN_API_KEY := none, ATLAN_TENANT := none }
      = .ok { base_url := "", api_key := "" } := ⟨rfl, rfl⟩

/-- C6 (amended): only createTags.py checks the two environment variables:
it aborts at import time — before any file load or remote call — when
either is unset or empty, and otherwise builds its client from them;
cm_generator.py and options_generator.py ignore the environment and always
construct a client with empty credentials. -/
theorem env_configuration (env : Env) (items : List (TagConfig × TagOutcome)) :
    (env.ATLAN_API_KEY.getD "" = "" ∨ env.ATLAN_TENANT.getD "" = "" →
        createTags_script env items
          = .error "Please set ATLAN_API_KEY and ATLAN_TENANT environment variables")
    ∧ (env.ATLAN_API_KEY.getD "" ≠ "" → env.ATLAN_TENANT.getD "" ≠ "" →
        createTags_init env
          = .ok { base_url := env.ATLAN_TENANT.getD "",
                  api_key := env.ATLAN_API_KEY.getD "" })
    ∧ cm_generator_client env = .ok { base_url := "", api_key := "" }
    ∧ options_generator_client env = .ok { base_url := "", api_key := "" } := by
  refine ⟨?_, ?_, rfl, rfl⟩
  · intro h
    have hinit : createTags_init env
        = .error "Please set ATLAN_API_KEY and ATLAN_TENANT environment variables" := by
      simp [createTags_init, h]
    simp [createTags_script, hinit]
  · intro h1 h2
    have hor : ¬(env.ATLAN_API_KEY.getD "" = "" ∨ env.ATLAN_TENANT.getD "" = "") := by
      rintro (hh | hh)
      exacts [h1 hh, h2 hh]
    simp [createTags_init, hor]

/-- Witness for C6 (amended) at an unset environment and at a fully set
one. -/
theorem env_configuration_witness :
    createTags_script { ATLAN_API_KEY := none, ATLAN_TENANT := none } []
      = .error "Please set ATLAN_API_KEY and ATLAN_TENANT environment variables"
    ∧ createTags_init { ATLAN_API_KEY := some "k", ATLAN_TENANT := some "https://x" }
      = .ok { base_url := "https://x", api_key := "k" } :=
  ⟨(env_configuration { ATLAN_API_KEY := none, ATLAN_TENANT := none } []).1 (Or.inl rfl),
   (env_configuration { ATLAN_API_KEY := some "k", ATLAN_TENANT := some "https://x" } []).2.1
     (by decide) (by decide)⟩

/-- C7 (counterexample): the claim says every outcome of the existence
check other than "not found" routes the item to the update path.  An
exception other than NotFoundError is not caught: the run aborts with that
error and no update action results. -/
theorem lookup_other_error_cex :
    processItem ∅ ∅ (.otherError "ConnectionError") itemPlain = .error "ConnectionError"
    ∧ (Except.error "ConnectionError" : Except String (Option RemoteAction))
        ≠ .ok (some (.updateDef existingCM)) :=
  ⟨rfl, fun h => Except.noConfusion h⟩

/-- C7 (amended): a NotFoundError on the existence check is a non-error
outcome routing the item to the create branch (where it is created unless
it carries an icon/emoji key); a successful lookup routes to update; any
OTHER exception of the existence check is uncaught and aborts — it routes
to neither path.  The same holds for options_generator.py. -/
theorem lookup_routing (connU glossU : Finset String) (item : ConfigItem)
    (eitem : EnumItem) (ex : CustomMetadataDef) (d : EnumTypeDef) (e : String) :
    processItem connU glossU (.otherError e) item = .error e
    ∧ processItem connU glossU (.found ex) item
        = .ok (some (.updateDef { ex with
            attribute_defs := reconcile connU glossU ex.attribute_defs item.attributes }))
    ∧ (item.hasIcon = false → item.hasEmoji = false →
        processItem connU glossU .notFound item
          = .ok (some (.createDef
              { display_name := item.name,
                attribute_defs := item.attributes.map
                  (fun p => AttributeDef.create connU glossU p.1 p.2) })))
    ∧ processEnumItem (.otherError e) eitem = .error e
    ∧ processEnumItem (.found d) eitem = .ok (.updateEnum eitem.name eitem.values true)
    ∧ processEnumItem .notFound eitem = .ok (.createEnum eitem.name eitem.values) := by
  refine ⟨rfl, rfl, ?_, rfl, rfl, rfl⟩
  intro h1 h2
  simp [processItem, h1, h2]

/-- Witness for C7 (amended) at concrete items and outcomes. -/
theorem lookup_routing_witness :
    processItem ∅ ∅ (.otherError "E") itemPlain = .error "E"
    ∧ processItem ∅ ∅ .notFound itemPlain
        = .ok (some (.createDef { display_name := some "CM2", attribute_defs := [] }))
    ∧ processEnumItem (.found enumDef1) enumItem1
        = .ok (.updateEnum (some "E1") (some ["a", "b"]) true) :=
  ⟨(lookup_routing ∅ ∅ itemPlain enumItem1 existingCM enumDef1 "E").1,
   (lookup_routing ∅ ∅ itemPlain enumItem1 existingCM enumDef1 "E").2.2.1 rfl rfl,
   (lookup_routing ∅ ∅ itemPlain enumItem1 existingCM enumDef1 "E").2.2.2.2.1⟩

/-- C8 (counterexample): the claim says no remote create OR UPDATE call is
issued for an item carrying an icon/emoji key.  The icon/emoji check exists
only in the create branch: when the definition already exists, the update
call is issued as for any other item. -/
theorem icon_update_path_cex :
    processItem ∅ ∅ (.found existingCM) itemIcon
      = .ok (some (.updateDef existingCM)) := rfl

/-- C8 (amended): an item with an "icon" or "emoji" key is skipped (no
remote call) only in the CREATE branch, where the `continue` statements
sit; in the update branch the key is ignored and the remote update is
issued as usual. -/
theorem icon_emoji_handling (connU glossU : Finset String) (item : ConfigItem)
    (ex : CustomMetadataDef) (h : item.hasIcon = true ∨ item.hasEmoji = true) :
    processItem connU glossU .notFound item = .ok none
    ∧ processItem connU glossU (.found ex) item
        = .ok (some (.updateDef { ex with
            attribute_defs := reconcile connU glossU ex.attribute_defs item.attributes })) := by
  constructor
  · rcases h with h | h
    · simp [processItem, h]
    · cases hi : item.hasIcon <;> simp [processItem, h, hi]
  · rfl

/-- Witness for C8 (amended) at the icon-carrying item. -/
theorem icon_emoji_handling_witness :
    (itemIcon.hasIcon = true ∨ itemIcon.hasEmoji = true)
    ∧ (processItem ∅ ∅ .notFound itemIcon = .ok none
       ∧ processItem ∅ ∅ (.found existingCM) itemIcon
           = .ok (some (.updateDef existingCM))) :=
  ⟨Or.inl rfl, icon_emoji_handling ∅ ∅ itemIcon existingCM (Or.inl rfl)⟩

/-- C10: a tag config entry whose `type` is none of "color", "emoji",
"icon" takes no branch, so `tag_def` stays unbound and evaluating the
argument of `client.typedef.create(tag_def)` raises before the call is
made: no tag definition is constructed or sent, the generic handler prints
the error and returns None, and the run continues with the next entry
(the entry contributes nothing to the summary). -/
theorem unknown_tag_type_skipped (o : TagOutcome) (cfg : TagConfig)
    (rest : List (TagConfig × TagOutcome))
    (h1 : cfg.type ≠ "color") (h2 : cfg.type ≠ "emoji") (h3 : cfg.type ≠ "icon") :
    create_tag_from_config o cfg = (none, none)
    ∧ runTags ((cfg, o) :: rest) = runTags rest := by
  have hc : create_tag_from_config o cfg = (none, none) := by
    simp [create_tag_from_config, h1, h2, h3]
  refine ⟨hc, ?_⟩
  simp [runTags, List.filterMap_cons, hc]

/-- Witness for C10 at the tag config with type "gradient". -/
theorem unknown_tag_type_skipped_witness :
    (tagUnknown.type ≠ "color" ∧ tagUnknown.type ≠ "emoji" ∧ tagUnknown.type ≠ "icon")
    ∧ (create_tag_from_config .success tagUnknown = (none, none)
       ∧ runTags [(tagUnknown, .success)] = runTags []) :=
  ⟨⟨by decide, by decide, by decide⟩,
   unknown_tag_type_skipped .success tagUnknown [] (by decide) (by decide) (by decide)⟩
